import Mathlib

/-
Verification of the Infinity storage lifecycle controller.

Shallow embedding of `Storage::SetStorageMode`, `Storage::SetReaderStorageContinue`,
`Storage::AttachCatalog` and `Storage::CreateDefaultDB` from
src/src/executor/operator/physical_delete.cppm (the `module storage;` part of the
file, lines 111-643).

Modelling conventions:
 - Every owned `UniquePtr` handle of the controller is modelled by a `Bool`
   (present / absent).  The periodic trigger thread additionally carries the
   set of installed triggers and its running flag, because transitions
   rebuild it with different trigger sets.
 - The process-global `VirtualStore::IsInit()` flag is carried in the state
   (`virtual_store_init`).
 - External nondeterminism (outcome of `VirtualStore::InitRemoteStore`, the
   timestamp returned by `WalManager::ReplayWalFile`, the status of
   `Txn::CreateDatabase`) is an explicit `Env` argument.
 - A call produces a `SetModeResult`: `ok` / `err` carry the post state and a
   trace of observable events (constructor, Start, Stop, destructor calls,
   remote-store init/uninit, transaction steps).  `fatal` models
   `UnrecoverableError` (the process aborts, no post state); `nullDeref`
   models dereferencing a null `UniquePtr` (undefined behaviour, no post
   state).  Destructor (`drop`) events are emitted only when the handle being
   reset is actually present, since `UniquePtr::reset()` on an empty pointer
   runs no destructor.
 - `UnrecoverableError` aborts the process, so hoisting a fatality check
   above pure state updates that precede it in the source is observation
   equivalent; the checks are kept in the source's order relative to each
   other, so the first failing check (and its message) is the same as in the
   source.
-/

set_option maxHeartbeats 1000000

/-- The `StorageMode` enumeration of the source. -/
inductive StorageMode where
  | kUnInitialized
  | kAdmin
  | kReadable
  | kWritable
deriving DecidableEq, Repr

/-- The `ReaderInitPhase` enumeration; `kInvalid` is the default-initialised value
(the spec calls it `None`). -/
inductive ReaderInitPhase where
  | kInvalid
  | kPhase1
  | kPhase2
deriving DecidableEq, Repr

/-- The `StorageType` enumeration: local disk or MinIO remote store.  The source
switch statements have an unreachable `default:` arm; with exactly these two
constructors that arm needs no model. -/
inductive StorageType where
  | kLocal
  | kMinio
deriving DecidableEq, Repr

/-- The periodic trigger thread together with the triggers installed on it
(`full_checkpoint_trigger_`, `delta_checkpoint_trigger_`,
`compact_segment_trigger_`, `optimize_index_trigger_`, `cleanup_trigger_`)
and whether `Start()` has been called (and not `Stop()`). -/
structure PeriodicTriggerThread where
  full_checkpoint_trigger : Bool
  delta_checkpoint_trigger : Bool
  compact_segment_trigger : Bool
  optimize_index_trigger : Bool
  cleanup_trigger : Bool
  running : Bool
deriving DecidableEq, Repr

/-- The configuration fields read by the embedded code paths.  Only the
fields that influence control flow or handle presence are modelled; fields
that are merely forwarded to subsystem constructors (directories, thresholds,
quotas, intervals used as trigger cadences) do not affect the controller
state and are omitted. -/
structure Config where
  storage_type : StorageType
  persistence_dir : String
  compact_interval : Int
deriving Repr

/-- External collaborator outcomes for one call: the status returned by
`VirtualStore::InitRemoteStore` (`none` = OK, `some e` = error code `e`), the
timestamp returned by `WalManager::ReplayWalFile`, and whether
`Txn::CreateDatabase` succeeds inside `CreateDefaultDB`. -/
structure Env where
  remote_init_status : Option Nat
  replay_ts : Nat
  create_db_ok : Bool
deriving Repr

/-- The controller state: `current_storage_mode_`, `reader_init_phase_`, one
presence flag per owned handle, the cleanup-trigger registration on the
background processor, and the process-global remote-store init flag. -/
structure Storage where
  current_storage_mode : StorageMode
  reader_init_phase : ReaderInitPhase
  wal_mgr : Bool
  new_catalog : Bool
  txn_mgr : Bool
  buffer_mgr : Bool
  persistence_manager : Bool
  object_storage_processor : Bool
  bg_processor : Bool
  bg_cleanup_trigger : Bool
  compact_processor : Bool
  memory_index_tracer : Bool
  periodic_trigger_thread : Option PeriodicTriggerThread
  result_cache_manager : Bool
  cleanup_info_tracer : Bool
  virtual_store_init : Bool
deriving DecidableEq, Repr

/-- The state constructed by `Storage::Storage`: un-initialised mode, default
reader phase, no handles, remote store not initialised. -/
def Storage.initial : Storage where
  current_storage_mode := .kUnInitialized
  reader_init_phase := .kInvalid
  wal_mgr := false
  new_catalog := false
  txn_mgr := false
  buffer_mgr := false
  persistence_manager := false
  object_storage_processor := false
  bg_processor := false
  bg_cleanup_trigger := false
  compact_processor := false
  memory_index_tracer := false
  periodic_trigger_thread := none
  result_cache_manager := false
  cleanup_info_tracer := false
  virtual_store_init := false

/-- The owned component handles of the controller. -/
inductive Handle where
  | wal
  | catalog
  | txnMgr
  | bufferMgr
  | persistence
  | objectStoreProc
  | bgProc
  | compactProc
  | memIdxTracer
  | periodicThread
  | resultCache
deriving DecidableEq, Repr

/-- Observable events of a transition, in program order: handle construction,
`Start()`, `Stop()`, destruction, remote-store init/uninit, WAL replay, and
the transaction steps of `CreateDefaultDB` and the forced checkpoint. -/
inductive Event where
  | construct (h : Handle)
  | start (h : Handle)
  | stop (h : Handle)
  | drop (h : Handle)
  | initRemote
  | uninitRemote
  | replayWal (target : StorageMode)
  | beginTxn
  | createDatabase (name : String) (comment : String)
  | commitTxn
  | setCleanupTrigger
  | submitForceCheckpoint
deriving DecidableEq, Repr

/-- Result of a lifecycle call.  `ok`/`err` carry the post state and event
trace; `fatal` is `UnrecoverableError` (process abort); `nullDeref` is a
dereference of an absent handle (undefined behaviour). -/
inductive SetModeResult where
  | ok (s : Storage) (tr : List Event)
  | err (code : Nat) (s : Storage) (tr : List Event)
  | fatal (msg : String)
  | nullDeref (field : String)
deriving DecidableEq, Repr

/-- Whether the call returned `Status::OK()`. -/
def SetModeResult.isOk : SetModeResult → Bool
  | .ok _ _ => true
  | _ => false

/-- Whether the call raised `UnrecoverableError`. -/
def SetModeResult.isFatal : SetModeResult → Bool
  | .fatal _ => true
  | _ => false

/-- Whether the call dereferenced an absent handle. -/
def SetModeResult.isNullDeref : SetModeResult → Bool
  | .nullDeref _ => true
  | _ => false

/-- The post state of a call; for aborting outcomes (`fatal`, `nullDeref`)
the pre state `s` is returned, since the process never reaches a post state. -/
def resultState (s : Storage) : SetModeResult → Storage
  | .ok s' _ => s'
  | .err _ s' _ => s'
  | _ => s

/-- The event trace of a call (empty for aborting outcomes). -/
def resultTrace : SetModeResult → List Event
  | .ok _ tr => tr
  | .err _ _ tr => tr
  | _ => []

/-- The post state of the Readable/Writable → {UnInitialized, Admin}
teardown (source lines 361-434 and 472-537, with the mode update of the
common tail at 461-464 / 559-562): every data-plane and processor handle is
dropped, the remote store is uninitialised when a MinIO object-storage
processor was live, and for target Admin a fresh WAL manager is constructed.
Unguarded `reset()` calls on absent handles are no-ops. -/
def teardownState (cfg : Config) (s : Storage) (target : StorageMode) : Storage :=
  { s with
    periodic_trigger_thread := none
    compact_processor := false
    bg_processor := false
    bg_cleanup_trigger := false
    new_catalog := false
    memory_index_tracer := false
    wal_mgr := target = .kAdmin
    object_storage_processor :=
      match cfg.storage_type with
      | .kLocal => s.object_storage_processor
      | .kMinio => false
    virtual_store_init :=
      match cfg.storage_type with
      | .kLocal => s.virtual_store_init
      | .kMinio => if s.object_storage_processor then false else s.virtual_store_init
    txn_mgr := false
    buffer_mgr := false
    persistence_manager := false
    current_storage_mode := target }

/-- The event trace of the Readable → {UnInitialized, Admin} teardown, in
source order (lines 361-434): periodic thread, background processor, catalog,
memory index tracer, WAL manager, object storage processor (with remote
uninit), transaction manager, buffer manager, persistence manager, and the
WAL reconstruction for target Admin.  A `drop` is emitted only when the
handle is present. -/
def readableTeardownTrace (cfg : Config) (s : Storage) (target : StorageMode) : List Event :=
  (if s.periodic_trigger_thread.isSome then
    [Event.stop .periodicThread, Event.drop .periodicThread] else []) ++
  (if s.bg_processor then [Event.stop .bgProc, Event.drop .bgProc] else []) ++
  (if s.new_catalog then [Event.drop .catalog] else []) ++
  (if s.memory_index_tracer then [Event.drop .memIdxTracer] else []) ++
  (if s.wal_mgr then [Event.stop .wal, Event.drop .wal] else []) ++
  (match cfg.storage_type with
   | .kLocal => []
   | .kMinio =>
     if s.object_storage_processor then
       [Event.stop .objectStoreProc, Event.drop .objectStoreProc, Event.uninitRemote]
     else []) ++
  (if s.txn_mgr then [Event.stop .txnMgr, Event.drop .txnMgr] else []) ++
  (if s.buffer_mgr then [Event.stop .bufferMgr, Event.drop .bufferMgr] else []) ++
  (if s.persistence_manager then [Event.drop .persistence] else []) ++
  (if target = .kAdmin then [Event.construct .wal] else [])

/-- The event trace of the Writable → {UnInitialized, Admin} teardown
(source lines 472-537): as for Readable but with the compaction processor
stopped and dropped between the periodic thread and the background
processor. -/
def writableTeardownTrace (cfg : Config) (s : Storage) (target : StorageMode) : List Event :=
  (if s.periodic_trigger_thread.isSome then
    [Event.stop .periodicThread, Event.drop .periodicThread] else []) ++
  (if s.compact_processor then [Event.stop .compactProc, Event.drop .compactProc] else []) ++
  (if s.bg_processor then [Event.stop .bgProc, Event.drop .bgProc] else []) ++
  (if s.new_catalog then [Event.drop .catalog] else []) ++
  (if s.memory_index_tracer then [Event.drop .memIdxTracer] else []) ++
  (if s.wal_mgr then [Event.stop .wal, Event.drop .wal] else []) ++
  (match cfg.storage_type with
   | .kLocal => []
   | .kMinio =>
     if s.object_storage_processor then
       [Event.stop .objectStoreProc, Event.drop .objectStoreProc, Event.uninitRemote]
     else []) ++
  (if s.txn_mgr then [Event.stop .txnMgr, Event.drop .txnMgr] else []) ++
  (if s.buffer_mgr then [Event.stop .bufferMgr, Event.drop .bufferMgr] else []) ++
  (if s.persistence_manager then [Event.drop .persistence] else []) ++
  (if target = .kAdmin then [Event.construct .wal] else [])

/-- Source lines 361-434 (with the common tail at 461-464): teardown of a
Readable node towards UnInitialized or Admin.  Fatality checks (wrong reader
phase for a live periodic thread / background processor / txn manager, a
compaction processor existing at all) appear in the source interleaved with
the teardown actions; they are hoisted here, preserving their relative
order, which is observation equivalent because `UnrecoverableError` aborts
the process. -/
def teardownFromReadable (cfg : Config) (s : Storage) (target : StorageMode) : SetModeResult :=
  if s.periodic_trigger_thread.isSome ∧ s.reader_init_phase ≠ .kPhase2 then
    .fatal "Error reader init phase"
  else if s.compact_processor then
    .fatal "Compact processor shouldnt be set before"
  else if s.bg_processor ∧ s.reader_init_phase ≠ .kPhase2 then
    .fatal "Error reader init phase"
  else if s.txn_mgr ∧ s.reader_init_phase ≠ .kPhase2 then
    .fatal "Error reader init phase"
  else
    .ok (teardownState cfg s target) (readableTeardownTrace cfg s target)

/-- Source lines 472-537 (with the common tail at 559-562): teardown of a
Writable node towards UnInitialized or Admin.  Identical to the Readable
teardown except that the compaction processor is stopped and dropped instead
of being a fatality, and there are no reader-phase checks. -/
def teardownFromWritable (cfg : Config) (s : Storage) (target : StorageMode) : SetModeResult :=
  .ok (teardownState cfg s target) (writableTeardownTrace cfg s target)

/-- The post state of the Writable → Readable demotion (source lines
539-562): compaction processor dropped, fresh periodic thread carrying only
the cleanup trigger, running, cleanup trigger registered with the background
processor, mode Readable.  `reader_init_phase_` is not touched. -/
def demoteState (s : Storage) : Storage :=
  { s with
    periodic_trigger_thread := some ⟨false, false, false, false, true, true⟩
    compact_processor := false
    bg_cleanup_trigger := true
    current_storage_mode := .kReadable }

/-- The event trace of the Writable → Readable demotion. -/
def demoteTrace (s : Storage) : List Event :=
  ((if s.periodic_trigger_thread.isSome then
     [Event.stop .periodicThread, Event.drop .periodicThread] else []) ++
   (if s.compact_processor then [Event.stop .compactProc, Event.drop .compactProc] else [])) ++
  [Event.construct .periodicThread, Event.setCleanupTrigger, Event.start .periodicThread]

/-- Source lines 539-557 (with the common tail at 559-562): demotion of a
Writable node to Readable.  Stops and drops the periodic thread and the
compaction processor, builds a fresh periodic thread carrying only the
cleanup trigger, registers that trigger with the background processor
(`bg_processor_->SetCleanupTrigger`, a dereference of `bg_processor_`
without a null check) and starts the thread. -/
def demoteToReadable (cfg : Config) (s : Storage) : SetModeResult :=
  if s.bg_processor = false then .nullDeref "bg_processor_"
  else .ok (demoteState s) (demoteTrace s)

/-- The post state of the Readable → Writable promotion (source lines
436-464), given the live periodic thread `pt`: compaction processor
constructed and started, the four Writable triggers installed on `pt` (the
cleanup trigger is left as it was), thread restarted, mode Writable. -/
def promoteState (s : Storage) (pt : PeriodicTriggerThread) : Storage :=
  { s with
    compact_processor := true
    periodic_trigger_thread :=
      some { pt with
             full_checkpoint_trigger := true
             delta_checkpoint_trigger := true
             compact_segment_trigger := true
             optimize_index_trigger := true
             running := true }
    current_storage_mode := .kWritable }

/-- Source lines 436-459 (with the common tail at 461-464): promotion of a
Readable node to Writable.  Constructs and starts the compaction processor
(passing the raw `new_catalog_` and `txn_mgr_` pointers), then
`periodic_trigger_thread_->Stop()` — a dereference without a null check —
installs the four Writable triggers on the existing thread and restarts
it. -/
def promoteToWritable (cfg : Config) (s : Storage) : SetModeResult :=
  if s.compact_processor then .fatal "compact processor was initialized before."
  else
    match s.periodic_trigger_thread with
    | none => .nullDeref "periodic_trigger_thread_"
    | some pt =>
      .ok (promoteState s pt)
        [Event.construct .compactProc, Event.start .compactProc,
         Event.stop .periodicThread, Event.start .periodicThread]

/-- The post state of the Admin → Readable bring-up (source lines 221-251):
persistence manager constructed when a persistence directory is configured,
result cache constructed if absent, buffer manager constructed and started,
`reader_init_phase_ = kPhase1`.  Catalog and transaction wiring is deferred
to `SetReaderStorageContinue`. -/
def bringUpReadableState (cfg : Config) (s : Storage) : Storage :=
  { s with
    persistence_manager :=
      if cfg.persistence_dir = "" then s.persistence_manager else true
    result_cache_manager := true
    buffer_mgr := true
    reader_init_phase := .kPhase1 }

/-- The event trace of the Admin → Readable bring-up, appended to the trace
`tr0` of the remote-store branch. -/
def bringUpReadableTrace (cfg : Config) (s : Storage) (tr0 : List Event) : List Event :=
  tr0 ++
  (if cfg.persistence_dir = "" then [] else [Event.construct .persistence]) ++
  (if s.result_cache_manager then [] else [Event.construct .resultCache]) ++
  [Event.construct .bufferMgr, Event.start .bufferMgr]

/-- The post state of the full Admin → Writable bring-up (source lines
221-354): on top of the Readable bring-up, the catalog is populated by WAL
replay (`Catalog::NewCatalog` when the replayed timestamp is 0), the
background processor, transaction manager, memory index tracer and
compaction processor are constructed and started, and the periodic trigger
thread is built with the full Writable trigger set, its cleanup trigger
registered with the background processor, and started.  The dead source
branch at lines 349-351 (target Readable, unreachable because the Readable
bring-up returned at line 250) would set `reader_init_phase_ = kPhase2`. -/
def bringUpRestState (cfg : Config) (s : Storage) (target : StorageMode) : Storage :=
  { s with
    persistence_manager :=
      if cfg.persistence_dir = "" then s.persistence_manager else true
    result_cache_manager := true
    buffer_mgr := true
    new_catalog := true
    bg_processor := true
    bg_cleanup_trigger := true
    txn_mgr := true
    memory_index_tracer := true
    compact_processor := if target = .kWritable then true else s.compact_processor
    periodic_trigger_thread :=
      some ⟨decide (target = .kWritable), decide (target = .kWritable),
            decide (target = .kWritable), decide (target = .kWritable), true, true⟩
    reader_init_phase :=
      if target = .kWritable then s.reader_init_phase else .kPhase2 }

/-- The event trace of the Admin → Writable bring-up, appended to `tr0`.
`CreateDefaultDB` (source lines 632-641) contributes its begin / create /
commit block exactly when the replayed timestamp is 0 and the target is
Writable; the forced-checkpoint transaction contributes the final
begin / submit / commit block. -/
def bringUpRestTrace (cfg : Config) (env : Env) (s : Storage) (target : StorageMode)
    (tr0 : List Event) : List Event :=
  tr0 ++
  (if cfg.persistence_dir = "" then [] else [Event.construct .persistence]) ++
  (if s.result_cache_manager then [] else [Event.construct .resultCache]) ++
  [Event.construct .bufferMgr, Event.start .bufferMgr] ++
  [Event.replayWal target] ++
  (if env.replay_ts = 0 then [Event.construct .catalog] else []) ++
  [Event.construct .bgProc] ++
  [Event.construct .txnMgr, Event.start .txnMgr, Event.start .wal] ++
  (if env.replay_ts = 0 ∧ target = .kWritable then
    [Event.beginTxn, Event.createDatabase "default_db" "Initial startup created",
     Event.commitTxn]
   else []) ++
  [Event.construct .memIdxTracer, Event.start .bgProc] ++
  (if target = .kWritable then
    [Event.construct .compactProc, Event.start .compactProc] else []) ++
  [Event.construct .periodicThread, Event.setCleanupTrigger] ++
  (if target = .kWritable then
    [Event.beginTxn, Event.submitForceCheckpoint, Event.commitTxn] else []) ++
  [Event.start .periodicThread]

/-- Source lines 221-354: the part of the Admin → {Readable, Writable}
bring-up after the storage-type switch.  `tr0` is the trace accumulated by
the remote-store branch.  The source's sequential state updates are
flattened into one record update per exit (`bringUpReadableState` /
`bringUpRestState`); every fatality check reads a field that no preceding
update of this code region writes, so each check is stated on the entry
state `s`, in the source's order.  Replaying the WAL dereferences
`wal_mgr_` (line 255); `CreateDefaultDB` failure is fatal (line 638). -/
def adminBringUpRest (cfg : Config) (env : Env) (s : Storage) (target : StorageMode)
    (tr0 : List Event) : SetModeResult :=
  if cfg.persistence_dir ≠ "" ∧ s.persistence_manager then
    .fatal "persistence_manager was initialized before."
  else if s.buffer_mgr then .fatal "Buffer manager was initialized before."
  else if target = .kReadable then
    .ok (bringUpReadableState cfg s) (bringUpReadableTrace cfg s tr0)
  else if s.wal_mgr = false then .nullDeref "wal_mgr_"
  else if s.bg_processor then .fatal "Background processor was initialized before."
  else if s.txn_mgr then .fatal "Transaction manager was initialized before."
  else if env.replay_ts = 0 ∧ target = .kWritable ∧ env.create_db_ok = false then
    .fatal "Cant initial default_db"
  else if s.memory_index_tracer then .fatal "Memory index tracer was initialized before."
  else if target = .kWritable ∧ s.compact_processor then
    .fatal "compact processor was initialized before."
  else if s.periodic_trigger_thread.isSome then
    .fatal "periodic trigger was initialized before."
  else
    .ok (bringUpRestState cfg s target) (bringUpRestTrace cfg env s target tr0)

/-- Source lines 180-354: the Admin → {Readable, Writable} bring-up.  Sets
the mode, then runs the storage-type switch: for MinIO it checks the
process-global init flag (fatal if already initialised), calls
`InitRemoteStore` — on error it restores `current_storage_mode_` to Admin,
calls `UnInitRemoteStore`, and returns the error (lines 201-208) — and on
success constructs and starts the object storage processor. -/
def adminBringUp (cfg : Config) (env : Env) (s : Storage) (target : StorageMode) :
    SetModeResult :=
  match cfg.storage_type with
  | .kLocal =>
    adminBringUpRest cfg env { s with current_storage_mode := target } target []
  | .kMinio =>
    if s.virtual_store_init then .fatal "remote storage system was initialized before."
    else
      match env.remote_init_status with
      | some e =>
        .err e { s with current_storage_mode := .kAdmin } []
      | none =>
        if s.object_storage_processor then
          .fatal "Object storage processor was initialized before."
        else
          adminBringUpRest cfg env
            { s with current_storage_mode := target
                     virtual_store_init := true
                     object_storage_processor := true }
            target
            [Event.initRemote, Event.construct .objectStoreProc, Event.start .objectStoreProc]

/-- Embedding of `Storage::SetStorageMode` (source lines 137-568).  The unchanged-target
case returns OK immediately (before `cleanup_info_tracer_` is replaced);
every other path first replaces `cleanup_info_tracer_` (line 143) — written
below as a `cleanup_info_tracer := true` update on the state passed to (or
returned by) each arm — and then dispatches on the current mode.  Note the
source quirk at lines 174-178: the Admin → UnInitialized branch drops the
WAL manager and `break`s without ever updating `current_storage_mode_`,
which therefore remains `kAdmin`. -/
def SetStorageMode (cfg : Config) (env : Env) (s : Storage) (target_mode : StorageMode) :
    SetModeResult :=
  if s.current_storage_mode = target_mode then .ok s []
  else
  match s.current_storage_mode with
  | .kUnInitialized =>
    if target_mode ≠ .kAdmin then
      .fatal "Attempt to set storage mode from UnInit to UnInit"
    else if s.wal_mgr then .fatal "WAL manager was initialized before."
    else
      .ok { s with cleanup_info_tracer := true
                   current_storage_mode := .kAdmin
                   wal_mgr := true }
        [Event.construct .wal]
  | .kAdmin =>
    if target_mode = .kAdmin then
      .fatal "Attempt to set storage mode from Admin to Admin"
    else if target_mode = .kUnInitialized then
      .ok { s with cleanup_info_tracer := true, wal_mgr := false }
        (if s.wal_mgr then [Event.drop .wal] else [])
    else adminBringUp cfg env { s with cleanup_info_tracer := true } target_mode
  | .kReadable =>
    if target_mode = .kReadable then
      .fatal "Attempt to set storage mode from Readable to Readable"
    else if target_mode = .kUnInitialized ∨ target_mode = .kAdmin then
      teardownFromReadable cfg { s with cleanup_info_tracer := true } target_mode
    else promoteToWritable cfg { s with cleanup_info_tracer := true }
  | .kWritable =>
    if target_mode = .kWritable then
      .fatal "Attempt to set storage mode from Writable to Writable"
    else if target_mode = .kUnInitialized ∨ target_mode = .kAdmin then
      teardownFromWritable cfg { s with cleanup_info_tracer := true } target_mode
    else demoteToReadable cfg { s with cleanup_info_tracer := true }

/-- Embedding of `Storage::SetReaderStorageContinue` (source lines 570-618).  Fatal unless
the mode is Readable; registers builtin functions into the catalog (a
dereference of `new_catalog_`, line 577), wires the background processor and
transaction manager, starts the WAL manager (a dereference of `wal_mgr_`,
line 592), constructs the memory index tracer, builds a periodic thread
carrying only the cleanup trigger, registers it and starts it, then sets
`reader_init_phase_ = kPhase2`. -/
def SetReaderStorageContinue (cfg : Config) (s : Storage) (ts : Nat) : SetModeResult :=
  if s.current_storage_mode ≠ .kReadable then
    .fatal "Expect current storage mode is READER"
  else if s.new_catalog = false then .nullDeref "new_catalog_"
  else if s.bg_processor then .fatal "Background processor was initialized before."
  else if s.txn_mgr then .fatal "Transaction manager was initialized before."
  else if s.wal_mgr = false then .nullDeref "wal_mgr_"
  else if s.memory_index_tracer then .fatal "Memory index tracer was initialized before."
  else if s.periodic_trigger_thread.isSome then
    .fatal "periodic trigger was initialized before."
  else
    .ok { s with
          bg_processor := true
          txn_mgr := true
          memory_index_tracer := true
          periodic_trigger_thread := some ⟨false, false, false, false, true, true⟩
          bg_cleanup_trigger := true
          reader_init_phase := .kPhase2 }
      [Event.construct .bgProc, Event.construct .txnMgr, Event.start .txnMgr,
       Event.start .wal, Event.construct .memIdxTracer, Event.start .bgProc,
       Event.construct .periodicThread, Event.setCleanupTrigger,
       Event.start .periodicThread]

/-- Embedding of `Storage::AttachCatalog` (source lines 620-622): loads the catalog from a
full checkpoint plus deltas; on the state it makes `new_catalog_` present. -/
def AttachCatalog (s : Storage) : Storage :=
  { s with new_catalog := true }

/-- The states reachable by permitted call sequences from the freshly
constructed controller: `set_mode` calls with any external outcomes (both
successful calls and recoverable-error returns yield a next state;
`UnrecoverableError` and null dereferences abort the process), the reader
bootstrap continuation, and `AttachCatalog`, which per the specification is
invoked during the Phase1 reader bootstrap to install the shipped
checkpoint before `SetReaderStorageContinue`. -/
inductive Reachable (cfg : Config) : Storage → Prop where
  | init : Reachable cfg Storage.initial
  | mode_ok {env target s s' tr} :
      Reachable cfg s → SetStorageMode cfg env s target = .ok s' tr → Reachable cfg s'
  | mode_err {env target s s' e tr} :
      Reachable cfg s → SetStorageMode cfg env s target = .err e s' tr → Reachable cfg s'
  | reader_continue {ts s s' tr} :
      Reachable cfg s → SetReaderStorageContinue cfg s ts = .ok s' tr → Reachable cfg s'
  | attach_catalog {s} :
      Reachable cfg s → s.current_storage_mode = .kReadable →
      s.reader_init_phase = .kPhase1 → Reachable cfg (AttachCatalog s)

/-- Handle set common to all fully wired states (Writable, and Readable after
the bootstrap finished): data-plane managers, processors and caches present,
remote-store processor present exactly for MinIO configurations, persistence
manager present exactly when a persistence directory is configured. -/
def WiredCore (cfg : Config) (s : Storage) : Prop :=
  s.wal_mgr = true ∧ s.new_catalog = true ∧ s.txn_mgr = true ∧ s.buffer_mgr = true ∧
  s.bg_processor = true ∧ s.memory_index_tracer = true ∧ s.result_cache_manager = true ∧
  s.cleanup_info_tracer = true ∧
  s.object_storage_processor = decide (cfg.storage_type = .kMinio) ∧
  s.persistence_manager = decide (cfg.persistence_dir ≠ "")

/-- Invariant of UnInitialized-mode states: no handle is present (the result
cache and the cleanup tracer are unconstrained; the source never drops
either). -/
def UnInitInv (s : Storage) : Prop :=
  s.wal_mgr = false ∧ s.new_catalog = false ∧ s.txn_mgr = false ∧ s.buffer_mgr = false ∧
  s.persistence_manager = false ∧ s.object_storage_processor = false ∧
  s.bg_processor = false ∧ s.compact_processor = false ∧ s.memory_index_tracer = false ∧
  s.periodic_trigger_thread = none

/-- Invariant of Admin-mode states: no data-plane or processor handle is
present.  The WAL manager is usually present but the source's
Admin → UnInitialized branch drops it while leaving the mode at Admin, so
its presence cannot be pinned down. -/
def AdminInv (s : Storage) : Prop :=
  s.new_catalog = false ∧ s.txn_mgr = false ∧ s.buffer_mgr = false ∧
  s.persistence_manager = false ∧ s.object_storage_processor = false ∧
  s.bg_processor = false ∧ s.compact_processor = false ∧ s.memory_index_tracer = false ∧
  s.periodic_trigger_thread = none ∧ s.cleanup_info_tracer = true

/-- Invariant of Readable-mode states still waiting for the external
checkpoint (the state entered by the Admin → Readable bring-up, possibly
after `AttachCatalog`): the reader phase is Phase1, the buffer manager and
result cache are live, and no catalog-dependent subsystem is wired yet. -/
def ReaderPhase1Inv (cfg : Config) (s : Storage) : Prop :=
  s.reader_init_phase = .kPhase1 ∧ s.txn_mgr = false ∧ s.bg_processor = false ∧
  s.memory_index_tracer = false ∧ s.periodic_trigger_thread = none ∧
  s.buffer_mgr = true ∧ s.result_cache_manager = true ∧ s.cleanup_info_tracer = true ∧
  s.object_storage_processor = decide (cfg.storage_type = .kMinio) ∧
  s.persistence_manager = decide (cfg.persistence_dir ≠ "")

/-- Invariant of fully wired Readable-mode states (reached via
`SetReaderStorageContinue` or by demotion from Writable): the full handle
set is live and the periodic thread carries exactly the cleanup trigger. -/
def ReaderWiredInv (cfg : Config) (s : Storage) : Prop :=
  WiredCore cfg s ∧
  s.periodic_trigger_thread = some ⟨false, false, false, false, true, true⟩

/-- The mode invariant of every reachable state: the remote-store init flag
tracks the object storage processor, and each mode constrains the handle
set as in the specification's §3 — except where the source deviates (result
cache never dropped, Admin states may lack the WAL manager, Readable states
split into the Phase1 bootstrap flavour and the fully wired flavour
irrespective of the recorded phase). -/
def StorageInv (cfg : Config) (s : Storage) : Prop :=
  s.virtual_store_init = s.object_storage_processor ∧
  (s.current_storage_mode = .kUnInitialized → UnInitInv s) ∧
  (s.current_storage_mode = .kAdmin → AdminInv s) ∧
  (s.current_storage_mode = .kReadable →
    s.compact_processor = false ∧ (ReaderPhase1Inv cfg s ∨ ReaderWiredInv cfg s)) ∧
  (s.current_storage_mode = .kWritable →
    WiredCore cfg s ∧ s.compact_processor = true ∧
    s.periodic_trigger_thread = some ⟨true, true, true, true, true, true⟩)

/-- Number of handle destructions in a trace. -/
def dropCount (tr : List Event) : Nat :=
  tr.countP (fun e => match e with | .drop _ => true | _ => false)

/-- The periodic trigger thread's `Stop()`. -/
def isPeriodicStop (e : Event) : Bool :=
  match e with | .stop .periodicThread => true | _ => false

/-- A `Stop()` of the background, compaction, or object-storage processor. -/
def isProcStop (e : Event) : Bool :=
  match e with
  | .stop .bgProc => true
  | .stop .compactProc => true
  | .stop .objectStoreProc => true
  | _ => false

/-- A `Stop()` of the background or compaction processor. -/
def isBgCompactStop (e : Event) : Bool :=
  match e with | .stop .bgProc => true | .stop .compactProc => true | _ => false

/-- The object-storage processor's `Stop()`. -/
def isObjStoreStop (e : Event) : Bool :=
  match e with | .stop .objectStoreProc => true | _ => false

/-- A destruction of the catalog, transaction manager, WAL manager or buffer
manager. -/
def isDataDrop (e : Event) : Bool :=
  match e with
  | .drop .catalog => true
  | .drop .txnMgr => true
  | .drop .wal => true
  | .drop .bufferMgr => true
  | _ => false

/-- A destruction of the transaction manager or buffer manager. -/
def isTxnBufDrop (e : Event) : Bool :=
  match e with | .drop .txnMgr => true | .drop .bufferMgr => true | _ => false

/-- Scan a trace left to right; `seen` records whether a `q`-event has
occurred; fails on a `p`-event occurring strictly after some `q`-event. -/
def allBeforeGo (p q : Event → Bool) (seen : Bool) : List Event → Bool
  | [] => true
  | e :: tl => !(p e && seen) && allBeforeGo p q (seen || q e) tl

/-- Every `p`-event of the trace occurs strictly before every `q`-event. -/
def allBefore (p q : Event → Bool) (tr : List Event) : Bool :=
  allBeforeGo p q false tr

/-- The teardown ordering exactly as claimed: the periodic thread's stop
precedes every bg/compact/object-store stop, and every one of those stops
precedes every catalog/txn/wal/buffer drop. -/
def c2OrigOk (tr : List Event) : Bool :=
  allBefore isPeriodicStop isProcStop tr && allBefore isProcStop isDataDrop tr

/-- The teardown ordering the source actually obeys: the periodic thread's
stop precedes every bg/compact/object-store stop; the bg and compact stops
precede every catalog/txn/wal/buffer drop; and the object-store stop
precedes the txn and buffer drops (it comes after the catalog and WAL
drops). -/
def c2AmendOk (tr : List Event) : Bool :=
  allBefore isPeriodicStop isProcStop tr &&
  allBefore isBgCompactStop isDataDrop tr &&
  allBefore isObjStoreStop isTxnBufDrop tr

theorem allBeforeGo_sublist (p q : Event → Bool) {l₁ l₂ : List Event} (h : l₁.Sublist l₂) :
    ∀ {b₁ b₂ : Bool}, (b₁ = true → b₂ = true) →
      allBeforeGo p q b₂ l₂ = true → allBeforeGo p q b₁ l₁ = true := by
  induction h with
  | slnil => intro b₁ b₂ _ _; rfl
  | cons a _ ih =>
    intro b₁ b₂ hb hgo
    simp only [allBeforeGo, Bool.and_eq_true] at hgo
    refine ih (fun h1 => ?_) hgo.2
    simp [hb h1]
  | cons₂ a _ ih =>
    intro b₁ b₂ hb hgo
    simp only [allBeforeGo, Bool.and_eq_true] at hgo ⊢
    refine ⟨?_, ih (fun h1 => ?_) hgo.2⟩
    · cases hpa : p a <;> cases hb1 : b₁ <;> simp_all
    · cases hq : q a <;> cases hb1 : b₁ <;> simp_all

theorem allBefore_sublist (p q : Event → Bool) {l₁ l₂ : List Event} (h : l₁.Sublist l₂)
    (h2 : allBefore p q l₂ = true) : allBefore p q l₁ = true :=
  allBeforeGo_sublist p q h (fun h1 => h1) h2

theorem c2AmendOk_sublist {l₁ l₂ : List Event} (h : l₁.Sublist l₂)
    (h2 : c2AmendOk l₂ = true) : c2AmendOk l₁ = true := by
  simp only [c2AmendOk, Bool.and_eq_true] at h2 ⊢
  obtain ⟨⟨hA, hB⟩, hC⟩ := h2
  exact ⟨⟨allBefore_sublist _ _ h hA, allBefore_sublist _ _ h hB⟩,
         allBefore_sublist _ _ h hC⟩

theorem ite_sublist {α : Type} {c : Prop} [Decidable c] (l : List α) :
    (if c then l else []).Sublist l := by
  split
  · exact List.Sublist.refl l
  · exact List.nil_sublist l

theorem minioChunk_sublist (st : StorageType) (b : Bool) (l : List Event) :
    (match st with
     | StorageType.kLocal => ([] : List Event)
     | StorageType.kMinio => if b then l else []).Sublist l := by
  cases st
  · exact List.nil_sublist l
  · exact ite_sublist l

/-- The full Readable-teardown trace, every conditional chunk taken. -/
def teardownCanonReadable : List Event :=
  [Event.stop .periodicThread, Event.drop .periodicThread] ++
  [Event.stop .bgProc, Event.drop .bgProc] ++
  [Event.drop .catalog] ++
  [Event.drop .memIdxTracer] ++
  [Event.stop .wal, Event.drop .wal] ++
  [Event.stop .objectStoreProc, Event.drop .objectStoreProc, Event.uninitRemote] ++
  [Event.stop .txnMgr, Event.drop .txnMgr] ++
  [Event.stop .bufferMgr, Event.drop .bufferMgr] ++
  [Event.drop .persistence] ++
  [Event.construct .wal]

/-- The full Writable-teardown trace, every conditional chunk taken. -/
def teardownCanonWritable : List Event :=
  [Event.stop .periodicThread, Event.drop .periodicThread] ++
  [Event.stop .compactProc, Event.drop .compactProc] ++
  [Event.stop .bgProc, Event.drop .bgProc] ++
  [Event.drop .catalog] ++
  [Event.drop .memIdxTracer] ++
  [Event.stop .wal, Event.drop .wal] ++
  [Event.stop .objectStoreProc, Event.drop .objectStoreProc, Event.uninitRemote] ++
  [Event.stop .txnMgr, Event.drop .txnMgr] ++
  [Event.stop .bufferMgr, Event.drop .bufferMgr] ++
  [Event.drop .persistence] ++
  [Event.construct .wal]

/-- The full Writable → Readable demotion trace, every conditional chunk
taken. -/
def demoteCanon : List Event :=
  ([Event.stop .periodicThread, Event.drop .periodicThread] ++
   [Event.stop .compactProc, Event.drop .compactProc]) ++
  [Event.construct .periodicThread, Event.setCleanupTrigger, Event.start .periodicThread]

theorem c2AmendOk_canonReadable : c2AmendOk teardownCanonReadable = true := by decide

theorem c2AmendOk_canonWritable : c2AmendOk teardownCanonWritable = true := by decide

theorem c2AmendOk_demoteCanon : c2AmendOk demoteCanon = true := by decide

/-- A trace without `Stop()` and destructor events. -/
def noStopDrop (tr : List Event) : Bool :=
  tr.all (fun e => match e with | .stop _ => false | .drop _ => false | _ => true)

theorem allBeforeGo_of_no_p (p q : Event → Bool) :
    ∀ (tr : List Event), (∀ e ∈ tr, p e = false) → ∀ b, allBeforeGo p q b tr = true := by
  intro tr
  induction tr with
  | nil => intro _ b; rfl
  | cons e tl ih =>
    intro hall b
    simp only [allBeforeGo, Bool.and_eq_true, Bool.not_eq_true', Bool.and_eq_false_iff]
    exact ⟨Or.inl (hall e (List.mem_cons_self e tl)),
           ih (fun x hx => hall x (List.mem_cons_of_mem e hx)) _⟩

theorem c2AmendOk_of_noStopDrop (tr : List Event) (h : noStopDrop tr = true) :
    c2AmendOk tr = true := by
  simp only [noStopDrop, List.all_eq_true] at h
  have h1 : ∀ e ∈ tr, isPeriodicStop e = false := by
    intro e he; have := h e he
    cases e <;> simp_all [isPeriodicStop]
  have h2 : ∀ e ∈ tr, isBgCompactStop e = false := by
    intro e he; have := h e he
    cases e <;> simp_all [isBgCompactStop]
  have h3 : ∀ e ∈ tr, isObjStoreStop e = false := by
    intro e he; have := h e he
    cases e <;> simp_all [isObjStoreStop]
  simp only [c2AmendOk, allBefore, Bool.and_eq_true]
  exact ⟨⟨allBeforeGo_of_no_p _ _ tr h1 false, allBeforeGo_of_no_p _ _ tr h2 false⟩,
         allBeforeGo_of_no_p _ _ tr h3 false⟩

theorem noStopDrop_append (l₁ l₂ : List Event) :
    noStopDrop (l₁ ++ l₂) = (noStopDrop l₁ && noStopDrop l₂) :=
  List.all_append

theorem adminBringUpRest_noStopDrop (cfg : Config) (env : Env) (s : Storage)
    (target : StorageMode) (tr0 : List Event) (s' : Storage) (tr : List Event)
    (h0 : noStopDrop tr0 = true)
    (h : adminBringUpRest cfg env s target tr0 = .ok s' tr) : noStopDrop tr = true := by
  unfold adminBringUpRest at h
  repeat' split at h
  all_goals first
    | exact SetModeResult.noConfusion h
    | (cases h
       simp only [bringUpReadableTrace, bringUpRestTrace, noStopDrop_append,
                  Bool.and_eq_true]
       repeat' apply And.intro
       all_goals first
         | exact h0
         | rfl
         | decide
         | (split <;> decide))

theorem adminBringUp_noStopDrop (cfg : Config) (env : Env) (s : Storage)
    (target : StorageMode) (s' : Storage) (tr : List Event)
    (h : adminBringUp cfg env s target = .ok s' tr) : noStopDrop tr = true := by
  unfold adminBringUp at h
  repeat' split at h
  all_goals first
    | exact SetModeResult.noConfusion h
    | exact adminBringUpRest_noStopDrop _ _ _ _ _ _ _ (by decide) h

/-- Every trace of a successful `SetStorageMode` call obeys the amended
teardown ordering. -/
theorem c2Amend_of_ok (cfg : Config) (env : Env) (s : Storage) (target : StorageMode)
    (s' : Storage) (tr : List Event)
    (h : SetStorageMode cfg env s target = .ok s' tr) : c2AmendOk tr = true := by
  unfold SetStorageMode at h
  split at h
  · cases h; decide
  · split at h
    · -- from UnInitialized
      repeat' split at h
      all_goals first
        | exact SetModeResult.noConfusion h
        | (cases h; decide)
    · -- from Admin
      split at h
      · exact SetModeResult.noConfusion h
      · split at h
        · cases h
          split <;> decide
        · exact c2AmendOk_of_noStopDrop _ (adminBringUp_noStopDrop _ _ _ _ _ _ h)
    · -- from Readable
      split at h
      · exact SetModeResult.noConfusion h
      · split at h
        · unfold teardownFromReadable at h
          repeat' split at h
          all_goals first
            | exact SetModeResult.noConfusion h
            | (cases h
               unfold readableTeardownTrace
               exact c2AmendOk_sublist
                 ((((((((((ite_sublist _).append (ite_sublist _)).append
                   (ite_sublist _)).append (ite_sublist _)).append
                   (ite_sublist _)).append (minioChunk_sublist _ _ _)).append
                   (ite_sublist _)).append (ite_sublist _)).append
                   (ite_sublist _)).append (ite_sublist _))
                 c2AmendOk_canonReadable)
        · unfold promoteToWritable at h
          repeat' split at h
          all_goals first
            | exact SetModeResult.noConfusion h
            | (cases h; decide)
    · -- from Writable
      split at h
      · exact SetModeResult.noConfusion h
      · split at h
        · unfold teardownFromWritable at h
          cases h
          unfold writableTeardownTrace
          exact c2AmendOk_sublist
            (((((((((((ite_sublist _).append (ite_sublist _)).append
              (ite_sublist _)).append (ite_sublist _)).append
              (ite_sublist _)).append (ite_sublist _)).append
              (minioChunk_sublist _ _ _)).append (ite_sublist _)).append
              (ite_sublist _)).append (ite_sublist _)).append (ite_sublist _))
            c2AmendOk_canonWritable
        · unfold demoteToReadable at h
          repeat' split at h
          all_goals first
            | exact SetModeResult.noConfusion h
            | (cases h
               unfold demoteTrace
               exact c2AmendOk_sublist
                 (((ite_sublist _).append (ite_sublist _)).append (List.Sublist.refl _))
                 c2AmendOk_demoteCanon)


theorem storageInv_teardownState (cfg : Config) (s : Storage) (target : StorageMode)
    (hvs : s.virtual_store_init = s.object_storage_processor)
    (hobj : s.object_storage_processor = decide (cfg.storage_type = .kMinio))
    (hcl : s.cleanup_info_tracer = true)
    (ht : target = .kUnInitialized ∨ target = .kAdmin) :
    StorageInv cfg (teardownState cfg s target) := by
  rcases ht with ht | ht <;>
    (subst ht
     cases hct : cfg.storage_type <;>
       cases hos : s.object_storage_processor <;>
         simp_all [teardownState, StorageInv, UnInitInv, AdminInv, ReaderPhase1Inv,
                   ReaderWiredInv, WiredCore])

theorem storageInv_bringUpRest (cfg : Config) (env : Env) (s : Storage)
    (target : StorageMode) (tr0 : List Event) (s' : Storage) (tr : List Event)
    (hvs : s.virtual_store_init = s.object_storage_processor)
    (hobj : s.object_storage_processor = decide (cfg.storage_type = .kMinio))
    (hc : s.new_catalog = false) (htx : s.txn_mgr = false) (hb : s.buffer_mgr = false)
    (hp : s.persistence_manager = false) (hbg : s.bg_processor = false)
    (hcp : s.compact_processor = false) (hmi : s.memory_index_tracer = false)
    (hpt : s.periodic_trigger_thread = none) (hcl : s.cleanup_info_tracer = true)
    (hmode : s.current_storage_mode = target)
    (ht : target = .kReadable ∨ target = .kWritable)
    (h : adminBringUpRest cfg env s target tr0 = .ok s' tr) : StorageInv cfg s' := by
  unfold adminBringUpRest at h
  repeat' split at h
  all_goals first
    | exact SetModeResult.noConfusion h
    | (cases h
       rcases ht with ht | ht <;> subst ht <;>
         (try simp_all) <;>
         (by_cases hd : cfg.persistence_dir = "" <;>
            simp_all [bringUpReadableState, bringUpRestState, StorageInv, UnInitInv,
                      AdminInv, ReaderPhase1Inv, ReaderWiredInv, WiredCore]))

theorem storageInv_bringUp (cfg : Config) (env : Env) (s : Storage)
    (target : StorageMode) (s' : Storage) (tr : List Event)
    (hvs : s.virtual_store_init = s.object_storage_processor)
    (hadm : AdminInv s)
    (hmode : s.current_storage_mode = .kAdmin)
    (ht : target = .kReadable ∨ target = .kWritable)
    (h : adminBringUp cfg env s target = .ok s' tr) : StorageInv cfg s' := by
  obtain ⟨hc, htx, hb, hp, ho, hbg, hcp, hmi, hpt, hcl⟩ := hadm
  unfold adminBringUp at h
  split at h
  · -- local storage
    rename_i hct
    refine storageInv_bringUpRest cfg env { s with current_storage_mode := target }
      target [] s' tr hvs ?_ hc htx hb hp hbg hcp hmi hpt hcl rfl ht h
    simp [ho, hct]
  · -- MinIO
    rename_i hct
    split at h
    · exact SetModeResult.noConfusion h
    · split at h
      · exact SetModeResult.noConfusion h
      · split at h
        · exact SetModeResult.noConfusion h
        · refine storageInv_bringUpRest cfg env
            { s with current_storage_mode := target
                     virtual_store_init := true
                     object_storage_processor := true }
            target _ s' tr rfl ?_ hc htx hb hp hbg hcp hmi hpt hcl rfl ht h
          simp [hct]

theorem storageInv_ok (cfg : Config) (env : Env) (s : Storage) (target : StorageMode)
    (s' : Storage) (tr : List Event) (hinv : StorageInv cfg s)
    (h : SetStorageMode cfg env s target = .ok s' tr) : StorageInv cfg s' := by
  obtain ⟨hvs, hU, hA, hR, hW⟩ := hinv
  unfold SetStorageMode at h
  split at h
  · cases h; exact ⟨hvs, hU, hA, hR, hW⟩
  rename_i hne
  split at h
  · -- from UnInitialized
    rename_i heq
    obtain ⟨w1, c1, t1, b1, p1, o1, g1, k1, m1, pt1⟩ := hU heq
    repeat' split at h
    all_goals first
      | exact SetModeResult.noConfusion h
      | (cases h
         exact ⟨hvs, fun hm => StorageMode.noConfusion hm,
                fun _ => ⟨c1, t1, b1, p1, o1, g1, k1, m1, pt1, rfl⟩,
                fun hm => StorageMode.noConfusion hm,
                fun hm => StorageMode.noConfusion hm⟩)
  · -- from Admin
    rename_i heq
    obtain ⟨c1, t1, b1, p1, o1, g1, k1, m1, pt1, cl1⟩ := hA heq
    split at h
    · exact SetModeResult.noConfusion h
    rename_i hta
    split at h
    · -- Admin → UnInitialized: the WAL manager is dropped but the mode stays Admin
      cases h
      exact ⟨hvs, fun hm => StorageMode.noConfusion (heq.symm.trans hm),
             fun _ => ⟨c1, t1, b1, p1, o1, g1, k1, m1, pt1, rfl⟩,
             fun hm => StorageMode.noConfusion (heq.symm.trans hm),
             fun hm => StorageMode.noConfusion (heq.symm.trans hm)⟩
    · rename_i htu
      have ht : target = .kReadable ∨ target = .kWritable := by
        cases target <;> simp_all
      exact storageInv_bringUp cfg env { s with cleanup_info_tracer := true } target s' tr
        hvs ⟨c1, t1, b1, p1, o1, g1, k1, m1, pt1, rfl⟩ heq ht h
  · -- from Readable
    rename_i heq
    obtain ⟨hcp, hflav⟩ := hR heq
    have hobj : s.object_storage_processor = decide (cfg.storage_type = .kMinio) := by
      rcases hflav with h1 | h1
      · exact h1.2.2.2.2.2.2.2.2.1
      · exact h1.1.2.2.2.2.2.2.2.2.1
    split at h
    · exact SetModeResult.noConfusion h
    rename_i htr
    split at h
    · -- teardown towards UnInitialized / Admin
      rename_i htgt
      unfold teardownFromReadable at h
      repeat' split at h
      all_goals first
        | exact SetModeResult.noConfusion h
        | (cases h
           exact storageInv_teardownState cfg _ target hvs hobj rfl htgt)
    · -- promotion to Writable
      rename_i htgt
      have htw : target = .kWritable := by cases target <;> simp_all
      subst htw
      unfold promoteToWritable at h
      repeat' split at h
      all_goals first
        | exact SetModeResult.noConfusion h
        | skip
      rename_i pt hpteq
      rcases hflav with h1 | h1
      · rw [show ({ s with cleanup_info_tracer := true } :
            Storage).periodic_trigger_thread = s.periodic_trigger_thread from rfl,
            h1.2.2.2.2.1] at hpteq
        exact Option.noConfusion hpteq
      · obtain ⟨⟨hw1, hw2, hw3, hw4, hw5, hw6, hw7, hw8, hw9, hw10⟩, hptw⟩ := h1
        have hpt2 : pt = ⟨false, false, false, false, true, true⟩ := by
          have := hptw.symm.trans hpteq
          exact (Option.some.inj this).symm
        subst hpt2
        cases h
        exact ⟨hvs, fun hm => StorageMode.noConfusion hm,
               fun hm => StorageMode.noConfusion hm,
               fun hm => StorageMode.noConfusion hm,
               fun _ => ⟨⟨hw1, hw2, hw3, hw4, hw5, hw6, hw7, rfl, hw9, hw10⟩, rfl, rfl⟩⟩
  · -- from Writable
    rename_i heq
    obtain ⟨⟨hw1, hw2, hw3, hw4, hw5, hw6, hw7, hw8, hw9, hw10⟩, hcp, hpt⟩ := hW heq
    split at h
    · exact SetModeResult.noConfusion h
    rename_i htw
    split at h
    · -- teardown towards UnInitialized / Admin
      rename_i htgt
      unfold teardownFromWritable at h
      cases h
      exact storageInv_teardownState cfg _ target hvs hw9 rfl htgt
    · -- demotion to Readable
      unfold demoteToReadable at h
      repeat' split at h
      all_goals first
        | exact SetModeResult.noConfusion h
        | (cases h
           exact ⟨hvs, fun hm => StorageMode.noConfusion hm,
                  fun hm => StorageMode.noConfusion hm,
                  fun _ => ⟨rfl, Or.inr ⟨⟨hw1, hw2, hw3, hw4, hw5, hw6, hw7, rfl, hw9, hw10⟩,
                    rfl⟩⟩,
                  fun hm => StorageMode.noConfusion hm⟩)

theorem storageInv_err (cfg : Config) (env : Env) (s : Storage) (target : StorageMode)
    (s' : Storage) (e : Nat) (tr : List Event) (hinv : StorageInv cfg s)
    (h : SetStorageMode cfg env s target = .err e s' tr) : StorageInv cfg s' := by
  obtain ⟨hvs, hU, hA, hR, hW⟩ := hinv
  unfold SetStorageMode at h
  split at h
  · exact SetModeResult.noConfusion h
  split at h
  · -- from UnInitialized: no error return on this path
    repeat' split at h
    all_goals exact SetModeResult.noConfusion h
  · -- from Admin: the only error return is the failed remote-store init
    rename_i heq
    obtain ⟨c1, t1, b1, p1, o1, g1, k1, m1, pt1, cl1⟩ := hA heq
    split at h
    · exact SetModeResult.noConfusion h
    split at h
    · exact SetModeResult.noConfusion h
    unfold adminBringUp at h
    split at h
    · unfold adminBringUpRest at h
      dsimp only at h
      repeat' split at h
      all_goals exact SetModeResult.noConfusion h
    · split at h
      · exact SetModeResult.noConfusion h
      · split at h
        · cases h
          exact ⟨hvs, fun hm => StorageMode.noConfusion hm,
                 fun _ => ⟨c1, t1, b1, p1, o1, g1, k1, m1, pt1, rfl⟩,
                 fun hm => StorageMode.noConfusion hm,
                 fun hm => StorageMode.noConfusion hm⟩
        · split at h
          · exact SetModeResult.noConfusion h
          · unfold adminBringUpRest at h
            dsimp only at h
            repeat' split at h
            all_goals exact SetModeResult.noConfusion h
  · -- from Readable: no error return
    split at h
    · exact SetModeResult.noConfusion h
    split at h
    · unfold teardownFromReadable at h
      repeat' split at h
      all_goals exact SetModeResult.noConfusion h
    · unfold promoteToWritable at h
      repeat' split at h
      all_goals exact SetModeResult.noConfusion h
  · -- from Writable: no error return
    split at h
    · exact SetModeResult.noConfusion h
    split at h
    · unfold teardownFromWritable at h
      exact SetModeResult.noConfusion h
    · unfold demoteToReadable at h
      repeat' split at h
      all_goals exact SetModeResult.noConfusion h

theorem storageInv_continue (cfg : Config) (s : Storage) (ts : Nat)
    (s' : Storage) (tr : List Event) (hinv : StorageInv cfg s)
    (h : SetReaderStorageContinue cfg s ts = .ok s' tr) : StorageInv cfg s' := by
  obtain ⟨hvs, hU, hA, hR, hW⟩ := hinv
  unfold SetReaderStorageContinue at h
  repeat' split at h
  all_goals first
    | exact SetModeResult.noConfusion h
    | skip
  rename_i h1 h2 h3 h4 h5 h6 h7
  have heq : s.current_storage_mode = .kReadable := not_not.mp h1
  obtain ⟨hcp, hflav⟩ := hR heq
  have hbuf : s.buffer_mgr = true := by
    rcases hflav with hf | hf
    · exact hf.2.2.2.2.2.1
    · exact hf.1.2.2.2.1
  have hrc : s.result_cache_manager = true := by
    rcases hflav with hf | hf
    · exact hf.2.2.2.2.2.2.1
    · exact hf.1.2.2.2.2.2.2.1
  have hcl : s.cleanup_info_tracer = true := by
    rcases hflav with hf | hf
    · exact hf.2.2.2.2.2.2.2.1
    · exact hf.1.2.2.2.2.2.2.2.1
  have hobj : s.object_storage_processor = decide (cfg.storage_type = .kMinio) := by
    rcases hflav with hf | hf
    · exact hf.2.2.2.2.2.2.2.2.1
    · exact hf.1.2.2.2.2.2.2.2.2.1
  have hpm : s.persistence_manager = decide (cfg.persistence_dir ≠ "") := by
    rcases hflav with hf | hf
    · exact hf.2.2.2.2.2.2.2.2.2
    · exact hf.1.2.2.2.2.2.2.2.2.2
  cases h
  exact ⟨hvs, fun hm => StorageMode.noConfusion (heq.symm.trans hm),
         fun hm => StorageMode.noConfusion (heq.symm.trans hm),
         fun _ => ⟨hcp, Or.inr ⟨⟨Bool.not_eq_false _ ▸ h5, Bool.not_eq_false _ ▸ h2,
           rfl, hbuf, rfl, rfl, hrc, hcl, hobj, hpm⟩, rfl⟩⟩,
         fun hm => StorageMode.noConfusion (heq.symm.trans hm)⟩

theorem storageInv_attach (cfg : Config) (s : Storage) (hinv : StorageInv cfg s)
    (hmode : s.current_storage_mode = .kReadable) :
    StorageInv cfg (AttachCatalog s) := by
  obtain ⟨hvs, hU, hA, hR, hW⟩ := hinv
  obtain ⟨hcp, hflav⟩ := hR hmode
  refine ⟨hvs, fun hm => StorageMode.noConfusion (hmode.symm.trans hm),
          fun hm => StorageMode.noConfusion (hmode.symm.trans hm),
          fun _ => ⟨hcp, ?_⟩,
          fun hm => StorageMode.noConfusion (hmode.symm.trans hm)⟩
  rcases hflav with hf | hf
  · exact Or.inl hf
  · obtain ⟨⟨hw1, hw2, hw3, hw4, hw5, hw6, hw7, hw8, hw9, hw10⟩, hpt⟩ := hf
    exact Or.inr ⟨⟨hw1, rfl, hw3, hw4, hw5, hw6, hw7, hw8, hw9, hw10⟩, hpt⟩

theorem storageInv_initial (cfg : Config) : StorageInv cfg Storage.initial := by
  refine ⟨rfl, fun _ => ?_, fun hm => StorageMode.noConfusion hm,
          fun hm => StorageMode.noConfusion hm, fun hm => StorageMode.noConfusion hm⟩
  exact ⟨rfl, rfl, rfl, rfl, rfl, rfl, rfl, rfl, rfl, rfl⟩

/-- Every reachable state satisfies the mode invariant. -/
theorem reachable_storageInv (cfg : Config) (s : Storage) (h : Reachable cfg s) :
    StorageInv cfg s := by
  induction h with
  | init => exact storageInv_initial cfg
  | mode_ok _ hstep ih => exact storageInv_ok _ _ _ _ _ _ ih hstep
  | mode_err _ hstep ih => exact storageInv_err _ _ _ _ _ _ _ ih hstep
  | reader_continue _ hstep ih => exact storageInv_continue _ _ _ _ _ ih hstep
  | attach_catalog _ hmode _ ih => exact storageInv_attach _ _ ih hmode

/-- Local-disk configuration, no persistence directory. -/
def cfgLocal : Config := ⟨.kLocal, "", 0⟩

/-- MinIO remote-store configuration, no persistence directory. -/
def cfgMinio : Config := ⟨.kMinio, "", 0⟩

/-- External outcomes: remote init succeeds, WAL replay returns timestamp 1. -/
def envReplay1 : Env := ⟨none, 1, true⟩

/-- External outcomes: remote init succeeds, WAL replay returns timestamp 0
(fresh database). -/
def envReplay0 : Env := ⟨none, 0, true⟩

/-- External outcomes: remote init fails with error code 7. -/
def envRemoteFail : Env := ⟨some 7, 1, true⟩

/-- Admin state reached by `UnInit → Admin` under the local configuration. -/
def adminState : Storage :=
  resultState Storage.initial (SetStorageMode cfgLocal envReplay1 Storage.initial .kAdmin)

/-- Writable state reached by `UnInit → Admin → Writable` (local). -/
def writableState : Storage :=
  resultState adminState (SetStorageMode cfgLocal envReplay1 adminState .kWritable)

/-- UnInitialized state reached by tearing the Writable node down. -/
def unInitTornDownState : Storage :=
  resultState writableState (SetStorageMode cfgLocal envReplay1 writableState .kUnInitialized)

/-- Readable state reached by demoting the Writable node; its
`reader_init_phase` is still the default `kInvalid`. -/
def demotedReadableState : Storage :=
  resultState writableState (SetStorageMode cfgLocal envReplay1 writableState .kReadable)

/-- Phase1 Readable state reached by `UnInit → Admin → Readable` (local). -/
def phase1ReadableState : Storage :=
  resultState adminState (SetStorageMode cfgLocal envReplay1 adminState .kReadable)

/-- Phase2 Readable state: catalog attached during Phase1, then the reader
bootstrap continuation. -/
def phase2ReadableState : Storage :=
  resultState (AttachCatalog phase1ReadableState)
    (SetReaderStorageContinue cfgLocal (AttachCatalog phase1ReadableState) 42)

/-- Admin state under the MinIO configuration. -/
def adminMinioState : Storage :=
  resultState Storage.initial (SetStorageMode cfgMinio envReplay1 Storage.initial .kAdmin)

/-- Writable state under the MinIO configuration (remote store initialised,
object storage processor live). -/
def writableMinioState : Storage :=
  resultState adminMinioState (SetStorageMode cfgMinio envReplay1 adminMinioState .kWritable)

/-- The state after the `Admin → UnInitialized` call: the WAL manager is
dropped but — source quirk, lines 174-178 — `current_storage_mode_` is still
`kAdmin`. -/
def adminNoWalState : Storage :=
  resultState adminState (SetStorageMode cfgLocal envReplay1 adminState .kUnInitialized)

theorem reachable_mode_ok {cfg : Config} {env : Env} {s : Storage} {target : StorageMode}
    (hr : Reachable cfg s) (hk : (SetStorageMode cfg env s target).isOk = true) :
    Reachable cfg (resultState s (SetStorageMode cfg env s target)) := by
  cases hmatch : SetStorageMode cfg env s target with
  | ok s' tr => exact Reachable.mode_ok hr hmatch
  | err e s' tr => rw [hmatch] at hk; exact Bool.noConfusion hk
  | fatal m => rw [hmatch] at hk; exact Bool.noConfusion hk
  | nullDeref f => rw [hmatch] at hk; exact Bool.noConfusion hk

theorem reachable_continue_ok {cfg : Config} {s : Storage} {ts : Nat}
    (hr : Reachable cfg s) (hk : (SetReaderStorageContinue cfg s ts).isOk = true) :
    Reachable cfg (resultState s (SetReaderStorageContinue cfg s ts)) := by
  cases hmatch : SetReaderStorageContinue cfg s ts with
  | ok s' tr => exact Reachable.reader_continue hr hmatch
  | err e s' tr => rw [hmatch] at hk; exact Bool.noConfusion hk
  | fatal m => rw [hmatch] at hk; exact Bool.noConfusion hk
  | nullDeref f => rw [hmatch] at hk; exact Bool.noConfusion hk

theorem reachable_adminState : Reachable cfgLocal adminState :=
  reachable_mode_ok Reachable.init (by decide)

theorem reachable_writableState : Reachable cfgLocal writableState :=
  reachable_mode_ok reachable_adminState (by decide)

theorem reachable_unInitTornDownState : Reachable cfgLocal unInitTornDownState :=
  reachable_mode_ok reachable_writableState (by decide)

theorem reachable_demotedReadableState : Reachable cfgLocal demotedReadableState :=
  reachable_mode_ok reachable_writableState (by decide)

theorem reachable_phase1ReadableState : Reachable cfgLocal phase1ReadableState :=
  reachable_mode_ok reachable_adminState (by decide)

theorem reachable_phase2ReadableState : Reachable cfgLocal phase2ReadableState :=
  reachable_continue_ok
    (Reachable.attach_catalog reachable_phase1ReadableState (by decide) (by decide))
    (by decide)

theorem reachable_adminMinioState : Reachable cfgMinio adminMinioState :=
  reachable_mode_ok Reachable.init (by decide)

theorem reachable_writableMinioState : Reachable cfgMinio writableMinioState :=
  reachable_mode_ok reachable_adminMinioState (by decide)

theorem reachable_adminNoWalState : Reachable cfgLocal adminNoWalState :=
  reachable_mode_ok reachable_adminState (by decide)

/-- C1 counterexample: the permitted sequence UnInit → Admin → Writable →
UnInitialized ends in a successful `set_mode` call whose post state has
`current_mode = UnInitialized` while the result cache handle is still
present, so the claim "every owned handle is absent with the sole possible
exception of cleanup_tracer" is false as stated. -/
theorem claim1_counterexample :
    (SetStorageMode cfgLocal envReplay1 Storage.initial .kAdmin).isOk = true ∧
    (SetStorageMode cfgLocal envReplay1 adminState .kWritable).isOk = true ∧
    (SetStorageMode cfgLocal envReplay1 writableState .kUnInitialized).isOk = true ∧
    unInitTornDownState.current_storage_mode = .kUnInitialized ∧
    unInitTornDownState.result_cache_manager = true := by
  decide

/-- C1 (amended): for every reachable state with
`current_mode = UnInitialized`, every owned component handle is absent with
the possible exception of `cleanup_tracer` AND `result_cache` (the source
never drops the result cache once constructed). -/
theorem claim1_uninit_handles_absent (cfg : Config) (s : Storage)
    (hr : Reachable cfg s) (hmode : s.current_storage_mode = .kUnInitialized) :
    s.wal_mgr = false ∧ s.new_catalog = false ∧ s.txn_mgr = false ∧
    s.buffer_mgr = false ∧ s.persistence_manager = false ∧
    s.object_storage_processor = false ∧ s.bg_processor = false ∧
    s.compact_processor = false ∧ s.memory_index_tracer = false ∧
    s.periodic_trigger_thread = none := by
  obtain ⟨_, hU, _, _, _⟩ := reachable_storageInv cfg s hr
  exact hU hmode

/-- C1 witness: the amended claim evaluated at the torn-down state. -/
theorem claim1_witness :
    unInitTornDownState.wal_mgr = false ∧ unInitTornDownState.new_catalog = false ∧
    unInitTornDownState.txn_mgr = false ∧ unInitTornDownState.buffer_mgr = false ∧
    unInitTornDownState.persistence_manager = false ∧
    unInitTornDownState.object_storage_processor = false ∧
    unInitTornDownState.bg_processor = false ∧
    unInitTornDownState.compact_processor = false ∧
    unInitTornDownState.memory_index_tracer = false ∧
    unInitTornDownState.periodic_trigger_thread = none :=
  claim1_uninit_handles_absent cfgLocal unInitTornDownState
    reachable_unInitTornDownState (by decide)

/-- C2 counterexample: the reachable Writable state under the MinIO
configuration, torn down to UnInitialized, executes a transition dropping
nine handles whose trace violates the claimed ordering: the object-store
processor's stop occurs after the catalog and WAL drops. -/
theorem claim2_counterexample :
    (SetStorageMode cfgMinio envReplay1 Storage.initial .kAdmin).isOk = true ∧
    (SetStorageMode cfgMinio envReplay1 adminMinioState .kWritable).isOk = true ∧
    (SetStorageMode cfgMinio envReplay1 writableMinioState .kUnInitialized).isOk = true ∧
    2 ≤ dropCount (resultTrace
      (SetStorageMode cfgMinio envReplay1 writableMinioState .kUnInitialized)) ∧
    c2OrigOk (resultTrace
      (SetStorageMode cfgMinio envReplay1 writableMinioState .kUnInitialized)) = false := by
  decide

/-- C2 (amended): in every transition executed by `set_mode` that drops two
or more handles, the periodic thread's stop precedes every
bg/compact/object-store stop; the bg and compact stops precede every
catalog/txn/wal/buffer drop; and the object-store stop precedes the txn and
buffer drops (it follows the catalog and WAL drops). -/
theorem claim2_teardown_ordering (cfg : Config) (env : Env) (s : Storage)
    (target : StorageMode) (s' : Storage) (tr : List Event)
    (h : SetStorageMode cfg env s target = .ok s' tr)
    (hdrops : 2 ≤ dropCount tr) : c2AmendOk tr = true :=
  c2Amend_of_ok cfg env s target s' tr h

/-- C2 witness: the amended ordering evaluated on the MinIO teardown trace,
which drops nine handles. -/
theorem claim2_witness :
    2 ≤ dropCount (resultTrace
      (SetStorageMode cfgMinio envReplay1 writableMinioState .kUnInitialized)) ∧
    c2AmendOk (resultTrace
      (SetStorageMode cfgMinio envReplay1 writableMinioState .kUnInitialized)) = true :=
  ⟨by decide,
   claim2_teardown_ordering cfgMinio envReplay1 writableMinioState .kUnInitialized
     (resultState writableMinioState
       (SetStorageMode cfgMinio envReplay1 writableMinioState .kUnInitialized))
     (resultTrace (SetStorageMode cfgMinio envReplay1 writableMinioState .kUnInitialized))
     rfl (by decide)⟩

/-- C6: `set_mode` with the current mode as target is an idempotent no-op:
it returns OK, performs no transition, and neither constructs nor drops any
handle (the post state equals the pre state and the event trace is empty). -/
theorem claim6_idempotent_noop (cfg : Config) (env : Env) (s : Storage)
    (target : StorageMode) (h : s.current_storage_mode = target) :
    SetStorageMode cfg env s target = .ok s [] := by
  unfold SetStorageMode
  rw [if_pos h]

/-- C6 witness: the no-op evaluated at the Writable state. -/
theorem claim6_witness :
    SetStorageMode cfgLocal envReplay1 writableState .kWritable = .ok writableState [] :=
  claim6_idempotent_noop cfgLocal envReplay1 writableState .kWritable (by decide)

theorem resultCache_ok (cfg : Config) (env : Env) (s : Storage) (target : StorageMode)
    (s' : Storage) (tr : List Event) (h : SetStorageMode cfg env s target = .ok s' tr)
    (hrc : s.result_cache_manager = true) : s'.result_cache_manager = true := by
  unfold SetStorageMode at h
  split at h
  · cases h; exact hrc
  split at h
  · repeat' split at h
    all_goals first
      | exact SetModeResult.noConfusion h
      | (cases h; exact hrc)
  · split at h
    · exact SetModeResult.noConfusion h
    split at h
    · cases h; exact hrc
    · unfold adminBringUp at h
      split at h
      · unfold adminBringUpRest at h
        dsimp only at h
        repeat' split at h
        all_goals first
          | exact SetModeResult.noConfusion h
          | (cases h; rfl)
      · split at h
        · exact SetModeResult.noConfusion h
        split at h
        · exact SetModeResult.noConfusion h
        split at h
        · exact SetModeResult.noConfusion h
        · unfold adminBringUpRest at h
          dsimp only at h
          repeat' split at h
          all_goals first
            | exact SetModeResult.noConfusion h
            | (cases h; rfl)
  · split at h
    · exact SetModeResult.noConfusion h
    split at h
    · unfold teardownFromReadable at h
      repeat' split at h
      all_goals first
        | exact SetModeResult.noConfusion h
        | (cases h; exact hrc)
    · unfold promoteToWritable at h
      repeat' split at h
      all_goals first
        | exact SetModeResult.noConfusion h
        | (cases h; exact hrc)
  · split at h
    · exact SetModeResult.noConfusion h
    split at h
    · unfold teardownFromWritable at h
      cases h; exact hrc
    · unfold demoteToReadable at h
      repeat' split at h
      all_goals first
        | exact SetModeResult.noConfusion h
        | (cases h; exact hrc)

theorem resultCache_err (cfg : Config) (env : Env) (s : Storage) (target : StorageMode)
    (e : Nat) (s' : Storage) (tr : List Event)
    (h : SetStorageMode cfg env s target = .err e s' tr)
    (hrc : s.result_cache_manager = true) : s'.result_cache_manager = true := by
  unfold SetStorageMode at h
  split at h
  · exact SetModeResult.noConfusion h
  split at h
  · repeat' split at h
    all_goals exact SetModeResult.noConfusion h
  · split at h
    · exact SetModeResult.noConfusion h
    split at h
    · exact SetModeResult.noConfusion h
    unfold adminBringUp at h
    split at h
    · unfold adminBringUpRest at h
      dsimp only at h
      repeat' split at h
      all_goals exact SetModeResult.noConfusion h
    · split at h
      · exact SetModeResult.noConfusion h
      split at h
      · cases h; exact hrc
      · split at h
        · exact SetModeResult.noConfusion h
        · unfold adminBringUpRest at h
          dsimp only at h
          repeat' split at h
          all_goals exact SetModeResult.noConfusion h
  · split at h
    · exact SetModeResult.noConfusion h
    split at h
    · unfold teardownFromReadable at h
      repeat' split at h
      all_goals exact SetModeResult.noConfusion h
    · unfold promoteToWritable at h
      repeat' split at h
      all_goals exact SetModeResult.noConfusion h
  · split at h
    · exact SetModeResult.noConfusion h
    split at h
    · unfold teardownFromWritable at h
      exact SetModeResult.noConfusion h
    · unfold demoteToReadable at h
      repeat' split at h
      all_goals exact SetModeResult.noConfusion h

/-- C10: no `set_mode` transition ever drops the result cache handle: if it
is present before the call it is present in the post state, whatever the
outcome (for aborting outcomes the pre state stands). -/
theorem claim10_result_cache_preserved (cfg : Config) (env : Env) (s : Storage)
    (target : StorageMode) (h : s.result_cache_manager = true) :
    (resultState s (SetStorageMode cfg env s target)).result_cache_manager = true := by
  cases hmatch : SetStorageMode cfg env s target with
  | ok s' tr => exact resultCache_ok cfg env s target s' tr hmatch h
  | err e s' tr => exact resultCache_err cfg env s target e s' tr hmatch h
  | fatal m => exact h
  | nullDeref f => exact h

/-- C10 witness: the result cache survives the full teardown of the Writable
node to UnInitialized. -/
theorem claim10_witness :
    (resultState writableState
      (SetStorageMode cfgLocal envReplay1 writableState .kUnInitialized)).result_cache_manager
      = true :=
  claim10_result_cache_preserved cfgLocal envReplay1 writableState .kUnInitialized
    (by decide)

/-- C5 counterexample: the reachable Phase1 Readable state (produced by
Admin → Readable) accepts `set_mode(UnInitialized)` and
`set_mode(Admin)` — both calls perform the teardown and return OK instead of
raising a fatal error. -/
theorem claim5_counterexample :
    phase1ReadableState.current_storage_mode = .kReadable ∧
    phase1ReadableState.reader_init_phase = .kPhase1 ∧
    (SetStorageMode cfgLocal envReplay1 phase1ReadableState .kUnInitialized).isOk = true ∧
    (SetStorageMode cfgLocal envReplay1 phase1ReadableState .kUnInitialized).isFatal
      = false ∧
    (SetStorageMode cfgLocal envReplay1 phase1ReadableState .kAdmin).isOk = true ∧
    (SetStorageMode cfgLocal envReplay1 phase1ReadableState .kAdmin).isFatal = false := by
  decide

/-- C5 (amended): from a Readable state in Phase1, `set_mode` towards
UnInitialized or Admin raises a fatal error exactly when one of the
periodic thread, compaction processor, background processor or transaction
manager handles is present; otherwise (in particular in the Phase1 state
reached by Admin → Readable, where they are all absent) the call performs
the partial teardown and returns OK. -/
theorem claim5_phase1_teardown (cfg : Config) (env : Env) (s : Storage)
    (target : StorageMode) (hmode : s.current_storage_mode = .kReadable)
    (hphase : s.reader_init_phase = .kPhase1)
    (ht : target = .kUnInitialized ∨ target = .kAdmin) :
    ((SetStorageMode cfg env s target).isFatal = true ↔
      (s.periodic_trigger_thread.isSome = true ∨ s.compact_processor = true ∨
       s.bg_processor = true ∨ s.txn_mgr = true)) ∧
    (¬(s.periodic_trigger_thread.isSome = true ∨ s.compact_processor = true ∨
       s.bg_processor = true ∨ s.txn_mgr = true) →
      (SetStorageMode cfg env s target).isOk = true) := by
  obtain ⟨m, ph, wal, cat, txn, buf, pm, osp, bg, bgc, cp, mit, ptt, rcm, cit, vsi⟩ := s
  dsimp only at hmode hphase
  subst hmode hphase
  rcases ht with ht | ht <;> subst ht <;>
    rcases ptt with _ | pt <;> cases cp <;> cases bg <;> cases txn <;>
      simp [SetStorageMode, teardownFromReadable, SetModeResult.isFatal,
            SetModeResult.isOk]

/-- C5 witness: the amended claim evaluated at the Phase1 state, where no
guarded handle is present and the teardown succeeds. -/
theorem claim5_witness :
    (((SetStorageMode cfgLocal envReplay1 phase1ReadableState .kUnInitialized).isFatal
        = true ↔
      (phase1ReadableState.periodic_trigger_thread.isSome = true ∨
       phase1ReadableState.compact_processor = true ∨
       phase1ReadableState.bg_processor = true ∨
       phase1ReadableState.txn_mgr = true)) ∧
    (¬(phase1ReadableState.periodic_trigger_thread.isSome = true ∨
       phase1ReadableState.compact_processor = true ∨
       phase1ReadableState.bg_processor = true ∨
       phase1ReadableState.txn_mgr = true) →
      (SetStorageMode cfgLocal envReplay1 phase1ReadableState .kUnInitialized).isOk
        = true)) :=
  claim5_phase1_teardown cfgLocal envReplay1 phase1ReadableState .kUnInitialized
    (by decide) (by decide) (Or.inl rfl)

/-- C3: from a reachable Admin state with a MinIO (remote) storage type, if
`InitRemoteStore` fails with error `e`, `set_mode` towards Readable or
Writable returns exactly that error, the post state equals the pre state
(mode reverted to Admin, no handle or trace change beyond the replaced
cleanup tracer, which was already present), and the remote store is left
uninitialised. -/
theorem claim3_remote_init_failure (cfg : Config) (env : Env) (s : Storage)
    (target : StorageMode) (e : Nat) (hr : Reachable cfg s)
    (hmode : s.current_storage_mode = .kAdmin) (hty : cfg.storage_type = .kMinio)
    (henv : env.remote_init_status = some e)
    (ht : target = .kReadable ∨ target = .kWritable) :
    SetStorageMode cfg env s target = .err e s [] ∧ s.virtual_store_init = false := by
  obtain ⟨hvs, _, hA, _, _⟩ := reachable_storageInv cfg s hr
  obtain ⟨c1, t1, b1, p1, o1, g1, k1, m1, pt1, cl1⟩ := hA hmode
  have hvs0 : s.virtual_store_init = false := hvs.trans o1
  refine ⟨?_, hvs0⟩
  have hseq : ({ s with
                 cleanup_info_tracer := true
                 current_storage_mode := StorageMode.kAdmin
                 virtual_store_init := false } : Storage) = s := by
    obtain ⟨m, ph, wal, cat, txn, buf, pm, osp, bg, bgc, cp, mit, ptt, rcm, cit, vsi⟩ := s
    dsimp only at hmode cl1 hvs0 ⊢
    rw [hmode, cl1, hvs0]
  unfold SetStorageMode adminBringUp
  rw [hmode, hty, henv]
  rcases ht with ht | ht <;> subst ht <;> simp [hvs0, hseq]

/-- C3 witness: the error return evaluated at the MinIO Admin state with a
failing remote init. -/
theorem claim3_witness :
    SetStorageMode cfgMinio envRemoteFail adminMinioState .kReadable
      = .err 7 adminMinioState [] ∧
    adminMinioState.virtual_store_init = false :=
  claim3_remote_init_failure cfgMinio envRemoteFail adminMinioState .kReadable 7
    reachable_adminMinioState (by decide) rfl rfl (Or.inl rfl)

/-- C4: evaluation at the failing input.  The `Admin → UnInitialized` call
returns OK but leaves `current_storage_mode_ = kAdmin` while dropping the
WAL manager (source lines 174-178 never update the mode).  The subsequent
`set_mode(Readable)` call is therefore an Admin → Readable call that returns
OK, yet its post state has the WAL handle absent — contradicting the claim
that every such call leaves wal, buffer_mgr and result_cache present. -/
theorem claim4_admin_readable_wal_absent :
    (SetStorageMode cfgLocal envReplay1 adminState .kUnInitialized).isOk = true ∧
    adminNoWalState.current_storage_mode = .kAdmin ∧
    adminNoWalState.wal_mgr = false ∧
    (SetStorageMode cfgLocal envReplay1 adminNoWalState .kReadable).isOk = true ∧
    (resultState adminNoWalState
      (SetStorageMode cfgLocal envReplay1 adminNoWalState .kReadable)).current_storage_mode
      = .kReadable ∧
    (resultState adminNoWalState
      (SetStorageMode cfgLocal envReplay1 adminNoWalState .kReadable)).reader_init_phase
      = .kPhase1 ∧
    (resultState adminNoWalState
      (SetStorageMode cfgLocal envReplay1 adminNoWalState .kReadable)).wal_mgr = false ∧
    (resultState adminNoWalState
      (SetStorageMode cfgLocal envReplay1 adminNoWalState .kReadable)).buffer_mgr = true ∧
    (resultState adminNoWalState
      (SetStorageMode cfgLocal envReplay1 adminNoWalState .kReadable)).result_cache_manager
      = true := by
  decide

/-- C8: for every reachable Writable state, the demotion to Readable
returns the state in which the compaction processor has been stopped and
dropped, a fresh periodic thread carrying only the cleanup trigger has been
constructed, re-registered with the background processor and started, the
mode is Readable, and the bg/catalog/txn/buffer/wal handles are unchanged
and present. -/
theorem claim8_writable_demotion (cfg : Config) (env : Env) (s : Storage)
    (hr : Reachable cfg s) (hmode : s.current_storage_mode = .kWritable) :
    (SetStorageMode cfg env s .kReadable).isOk = true ∧
    (resultState s (SetStorageMode cfg env s .kReadable)).current_storage_mode
      = .kReadable ∧
    (resultState s (SetStorageMode cfg env s .kReadable)).compact_processor = false ∧
    Event.stop .compactProc ∈ resultTrace (SetStorageMode cfg env s .kReadable) ∧
    Event.drop .compactProc ∈ resultTrace (SetStorageMode cfg env s .kReadable) ∧
    Event.stop .periodicThread ∈ resultTrace (SetStorageMode cfg env s .kReadable) ∧
    Event.construct .periodicThread ∈ resultTrace (SetStorageMode cfg env s .kReadable) ∧
    Event.setCleanupTrigger ∈ resultTrace (SetStorageMode cfg env s .kReadable) ∧
    Event.start .periodicThread ∈ resultTrace (SetStorageMode cfg env s .kReadable) ∧
    (resultState s (SetStorageMode cfg env s .kReadable)).periodic_trigger_thread
      = some ⟨false, false, false, false, true, true⟩ ∧
    (resultState s (SetStorageMode cfg env s .kReadable)).bg_processor = s.bg_processor ∧
    s.bg_processor = true ∧
    (resultState s (SetStorageMode cfg env s .kReadable)).new_catalog = s.new_catalog ∧
    s.new_catalog = true ∧
    (resultState s (SetStorageMode cfg env s .kReadable)).txn_mgr = s.txn_mgr ∧
    s.txn_mgr = true ∧
    (resultState s (SetStorageMode cfg env s .kReadable)).buffer_mgr = s.buffer_mgr ∧
    s.buffer_mgr = true ∧
    (resultState s (SetStorageMode cfg env s .kReadable)).wal_mgr = s.wal_mgr ∧
    s.wal_mgr = true := by
  obtain ⟨hvs, _, _, _, hW⟩ := reachable_storageInv cfg s hr
  obtain ⟨⟨hw1, hw2, hw3, hw4, hw5, hw6, hw7, hw8, hw9, hw10⟩, hcp, hpt⟩ := hW hmode
  have hcall : SetStorageMode cfg env s .kReadable =
      .ok (demoteState { s with cleanup_info_tracer := true })
          (demoteTrace { s with cleanup_info_tracer := true }) := by
    unfold SetStorageMode demoteToReadable
    rw [hmode]
    simp [hw5]
  rw [hcall]
  refine ⟨rfl, rfl, rfl, ?_, ?_, ?_, ?_, ?_, ?_, rfl, rfl, hw5, rfl, hw2, rfl, hw3,
          rfl, hw4, rfl, hw1⟩ <;>
    simp [demoteTrace, resultTrace, hpt, hcp]

/-- C8 witness: the demotion evaluated at the concrete Writable state. -/
theorem claim8_witness :
    (SetStorageMode cfgLocal envReplay1 writableState .kReadable).isOk = true ∧
    (resultState writableState
      (SetStorageMode cfgLocal envReplay1 writableState .kReadable)).current_storage_mode
      = .kReadable ∧
    (resultState writableState
      (SetStorageMode cfgLocal envReplay1 writableState .kReadable)).compact_processor
      = false ∧
    Event.stop .compactProc
      ∈ resultTrace (SetStorageMode cfgLocal envReplay1 writableState .kReadable) ∧
    Event.drop .compactProc
      ∈ resultTrace (SetStorageMode cfgLocal envReplay1 writableState .kReadable) ∧
    Event.stop .periodicThread
      ∈ resultTrace (SetStorageMode cfgLocal envReplay1 writableState .kReadable) ∧
    Event.construct .periodicThread
      ∈ resultTrace (SetStorageMode cfgLocal envReplay1 writableState .kReadable) ∧
    Event.setCleanupTrigger
      ∈ resultTrace (SetStorageMode cfgLocal envReplay1 writableState .kReadable) ∧
    Event.start .periodicThread
      ∈ resultTrace (SetStorageMode cfgLocal envReplay1 writableState .kReadable) ∧
    (resultState writableState
      (SetStorageMode cfgLocal envReplay1 writableState .kReadable)).periodic_trigger_thread
      = some ⟨false, false, false, false, true, true⟩ ∧
    (resultState writableState
      (SetStorageMode cfgLocal envReplay1 writableState .kReadable)).bg_processor
      = writableState.bg_processor ∧
    writableState.bg_processor = true ∧
    (resultState writableState
      (SetStorageMode cfgLocal envReplay1 writableState .kReadable)).new_catalog
      = writableState.new_catalog ∧
    writableState.new_catalog = true ∧
    (resultState writableState
      (SetStorageMode cfgLocal envReplay1 writableState .kReadable)).txn_mgr
      = writableState.txn_mgr ∧
    writableState.txn_mgr = true ∧
    (resultState writableState
      (SetStorageMode cfgLocal envReplay1 writableState .kReadable)).buffer_mgr
      = writableState.buffer_mgr ∧
    writableState.buffer_mgr = true ∧
    (resultState writableState
      (SetStorageMode cfgLocal envReplay1 writableState .kReadable)).wal_mgr
      = writableState.wal_mgr ∧
    writableState.wal_mgr = true :=
  claim8_writable_demotion cfgLocal envReplay1 writableState reachable_writableState
    (by decide)

/-- C9 counterexample: the claim says the promotion is safe "only under
reader_phase = Phase2", but the Readable state reached by demoting a
Writable node has `reader_init_phase = kInvalid` (never set) and its
promotion succeeds without any null dereference. -/
theorem claim9_counterexample :
    demotedReadableState.current_storage_mode = .kReadable ∧
    demotedReadableState.reader_init_phase ≠ .kPhase2 ∧
    (SetStorageMode cfgLocal envReplay1 demotedReadableState .kWritable).isOk = true ∧
    (SetStorageMode cfgLocal envReplay1 demotedReadableState .kWritable).isNullDeref
      = false := by
  decide

/-- C9 (amended): the promotion path dereferences the periodic thread (and
hands the raw catalog and txn-manager pointers to the compaction processor)
without presence checks; under the precondition reader_phase = Phase2 those
handles are present in every reachable state (the invariant), so the
promotion neither null-dereferences nor aborts — Phase2 is sufficient for
safety, but not necessary (demoted Readable states are also safe). -/
theorem claim9_phase2_promotion_safe (cfg : Config) (env : Env) (s : Storage)
    (hr : Reachable cfg s) (hmode : s.current_storage_mode = .kReadable)
    (hphase : s.reader_init_phase = .kPhase2) :
    s.periodic_trigger_thread.isSome = true ∧ s.new_catalog = true ∧ s.txn_mgr = true ∧
    (SetStorageMode cfg env s .kWritable).isOk = true ∧
    (SetStorageMode cfg env s .kWritable).isNullDeref = false ∧
    (SetStorageMode cfg env s .kWritable).isFatal = false := by
  obtain ⟨hvs, _, _, hR, _⟩ := reachable_storageInv cfg s hr
  obtain ⟨hcp, hflav⟩ := hR hmode
  rcases hflav with hf | hf
  · exact absurd (hphase.symm.trans hf.1) (by decide)
  · obtain ⟨⟨hw1, hw2, hw3, hw4, hw5, hw6, hw7, hw8, hw9, hw10⟩, hptw⟩ := hf
    have hcall : SetStorageMode cfg env s .kWritable =
        .ok (promoteState { s with cleanup_info_tracer := true }
              ⟨false, false, false, false, true, true⟩)
            [Event.construct .compactProc, Event.start .compactProc,
             Event.stop .periodicThread, Event.start .periodicThread] := by
      unfold SetStorageMode promoteToWritable
      rw [hmode]
      dsimp only
      simp [hcp, hptw]
    rw [hcall]
    exact ⟨by simp [hptw], hw2, hw3, rfl, rfl, rfl⟩

/-- C9 witness: the amended claim evaluated at the Phase2 state reached by
the two-phase reader bootstrap. -/
theorem claim9_witness :
    phase2ReadableState.periodic_trigger_thread.isSome = true ∧
    phase2ReadableState.new_catalog = true ∧ phase2ReadableState.txn_mgr = true ∧
    (SetStorageMode cfgLocal envReplay1 phase2ReadableState .kWritable).isOk = true ∧
    (SetStorageMode cfgLocal envReplay1 phase2ReadableState .kWritable).isNullDeref
      = false ∧
    (SetStorageMode cfgLocal envReplay1 phase2ReadableState .kWritable).isFatal = false :=
  claim9_phase2_promotion_safe cfgLocal envReplay1 phase2ReadableState
    reachable_phase2ReadableState (by decide) (by decide)

/-- The event emitted by `Txn::CreateDatabase` inside `CreateDefaultDB`
(source line 636): the well-known name and the human-readable comment. -/
def createDBEvent : Event :=
  Event.createDatabase "default_db" "Initial startup created"

theorem setMode_admin_to_bringUpRest (cfg : Config) (env : Env) (s : Storage)
    (target : StorageMode) (sW : Storage) (trW : List Event)
    (hmode : s.current_storage_mode = .kAdmin)
    (ht : target = .kReadable ∨ target = .kWritable)
    (h : SetStorageMode cfg env s target = .ok sW trW) :
    ∃ s₀ tr0, createDBEvent ∉ tr0 ∧
      adminBringUpRest cfg env s₀ target tr0 = .ok sW trW := by
  unfold SetStorageMode at h
  have hne : ¬ s.current_storage_mode = target := by
    rcases ht with ht | ht <;> subst ht <;> simp [hmode]
  rw [if_neg hne] at h
  split at h
  · rename_i harm; exact absurd (harm.symm.trans hmode) (by decide)
  · rename_i harm
    have hta : ¬ target = .kAdmin := by
      rcases ht with ht | ht <;> subst ht <;> decide
    have htu : ¬ target = .kUnInitialized := by
      rcases ht with ht | ht <;> subst ht <;> decide
    rw [if_neg hta, if_neg htu] at h
    unfold adminBringUp at h
    split at h
    · exact ⟨_, [], by decide, h⟩
    · split at h
      · exact SetModeResult.noConfusion h
      split at h
      · exact SetModeResult.noConfusion h
      split at h
      · exact SetModeResult.noConfusion h
      · exact ⟨_, _, by decide, h⟩
  · rename_i harm; exact absurd (harm.symm.trans hmode) (by decide)
  · rename_i harm; exact absurd (harm.symm.trans hmode) (by decide)

theorem bringUpRest_createDB (cfg : Config) (env : Env) (s : Storage) (tr0 : List Event)
    (sW : Storage) (trW : List Event) (h0 : createDBEvent ∉ tr0)
    (h : adminBringUpRest cfg env s .kWritable tr0 = .ok sW trW) :
    ((createDBEvent ∈ trW) ↔ env.replay_ts = 0) ∧
    (env.replay_ts = 0 →
      ∃ u v, trW = u ++ [Event.beginTxn, createDBEvent, Event.commitTxn] ++ v) ∧
    (env.replay_ts = 0 → env.create_db_ok = true) := by
  unfold adminBringUpRest at h
  repeat' split at h
  all_goals first
    | exact SetModeResult.noConfusion h
    | (exfalso; simp_all; done)
    | skip
  rename_i hguard _ _ _
  cases h
  refine ⟨?_, ?_, ?_⟩
  · unfold bringUpRestTrace createDBEvent
    by_cases hz : env.replay_ts = 0 <;>
      simp_all [createDBEvent, List.mem_append]
  · intro hz
    refine ⟨tr0 ++
      (if cfg.persistence_dir = "" then [] else [Event.construct .persistence]) ++
      (if s.result_cache_manager then [] else [Event.construct .resultCache]) ++
      [Event.construct .bufferMgr, Event.start .bufferMgr] ++
      [Event.replayWal .kWritable] ++ [Event.construct .catalog] ++
      [Event.construct .bgProc] ++
      [Event.construct .txnMgr, Event.start .txnMgr, Event.start .wal],
      [Event.construct .memIdxTracer, Event.start .bgProc] ++
      [Event.construct .compactProc, Event.start .compactProc] ++
      [Event.construct .periodicThread, Event.setCleanupTrigger] ++
      [Event.beginTxn, Event.submitForceCheckpoint, Event.commitTxn] ++
      [Event.start .periodicThread], ?_⟩
    unfold bringUpRestTrace createDBEvent
    simp [hz, List.append_assoc]
  · intro hz
    by_cases hok : env.create_db_ok = true
    · exact hok
    · exact absurd ⟨hz, rfl, by simpa using hok⟩ hguard

theorem bringUpRest_readable_no_createDB (cfg : Config) (env : Env) (s : Storage)
    (tr0 : List Event) (sR : Storage) (trR : List Event) (h0 : createDBEvent ∉ tr0)
    (h : adminBringUpRest cfg env s .kReadable tr0 = .ok sR trR) :
    createDBEvent ∉ trR := by
  unfold adminBringUpRest at h
  repeat' split at h
  all_goals first
    | exact SetModeResult.noConfusion h
    | (exfalso; simp_all; done)
    | skip
  cases h
  unfold bringUpReadableTrace
  simp only [List.mem_append, not_or]
  refine ⟨⟨⟨h0, ?_⟩, ?_⟩, ?_⟩
  · split <;> decide
  · split <;> decide
  · decide

/-- C7: in every Admin → Writable bring-up that returns OK, the default
database "default_db" is created if and only if the WAL replay returned
`system_start_ts = 0`; the creation is the contiguous transaction block
begin / create "default_db" (with the human-readable comment
"Initial startup created") / commit; a replay timestamp of 0 with a failing
`CreateDatabase` cannot produce an OK result (the source raises
`UnrecoverableError`); and an Admin → Readable bring-up never creates the
default database. -/
theorem claim7_default_db (cfg : Config) (env : Env) (s : Storage) (sW : Storage)
    (trW : List Event) (hmode : s.current_storage_mode = .kAdmin)
    (hW : SetStorageMode cfg env s .kWritable = .ok sW trW) :
    ((createDBEvent ∈ trW) ↔ env.replay_ts = 0) ∧
    (env.replay_ts = 0 →
      ∃ u v, trW = u ++ [Event.beginTxn, createDBEvent, Event.commitTxn] ++ v) ∧
    (env.replay_ts = 0 → env.create_db_ok = true) ∧
    (∀ sR trR, SetStorageMode cfg env s .kReadable = .ok sR trR →
      createDBEvent ∉ trR) := by
  obtain ⟨s₀, tr0, h0, hrest⟩ :=
    setMode_admin_to_bringUpRest cfg env s .kWritable sW trW hmode (Or.inr rfl) hW
  obtain ⟨ha, hb, hc⟩ := bringUpRest_createDB cfg env s₀ tr0 sW trW h0 hrest
  refine ⟨ha, hb, hc, ?_⟩
  intro sR trR hR
  obtain ⟨s₁, tr1, h1, hrest1⟩ :=
    setMode_admin_to_bringUpRest cfg env s .kReadable sR trR hmode (Or.inl rfl) hR
  exact bringUpRest_readable_no_createDB cfg env s₁ tr1 sR trR h1 hrest1

/-- C7 witness: the bring-up evaluated at the Admin state with replay
timestamp 0 (fresh database). -/
theorem claim7_witness :
    ((createDBEvent ∈ resultTrace (SetStorageMode cfgLocal envReplay0 adminState .kWritable))
      ↔ envReplay0.replay_ts = 0) ∧
    (envReplay0.replay_ts = 0 →
      ∃ u v, resultTrace (SetStorageMode cfgLocal envReplay0 adminState .kWritable)
        = u ++ [Event.beginTxn, createDBEvent, Event.commitTxn] ++ v) ∧
    (envReplay0.replay_ts = 0 → envReplay0.create_db_ok = true) ∧
    (∀ sR trR, SetStorageMode cfgLocal envReplay0 adminState .kReadable = .ok sR trR →
      createDBEvent ∉ trR) :=
  claim7_default_db cfgLocal envReplay0 adminState
    (resultState adminState (SetStorageMode cfgLocal envReplay0 adminState .kWritable))
    (resultTrace (SetStorageMode cfgLocal envReplay0 adminState .kWritable))
    (by decide) rfl
